import Mathlib

/-!
Verification of `examples/playback.js` from the node-ari-client repository.

The example connects an ARI client, waits (via `once`) for a `StasisStart`
event, answers the incoming channel, plays `sound:demo-congrats` through a
freshly allocated `Playback` handle, and registers a `ChannelDtmfReceived`
listener that controls the playback: 5 pause, 8 unpause, 4 reverse,
6 forward, 2 restart, # stop-and-hangup (the hangup completion callback
calls `process.exit(0)`); any other digit logs `Unknown DTMF <digit>`.

We embed the listener and the entry flow shallowly: issued network
operations, pending completion callbacks, the error log, and process exit
are explicit state; asynchronous completions are delivered by an explicit
step function.  Library behaviour that is not part of the example file
(operation validation, `once` semantics, the `Playback` factory) is
modelled from the spec and marked as such.
-/

namespace AriPlayback

/-- Error outcomes an operation's completion callback may receive
(taxonomy of spec section 7). -/
inductive AriError where
  | requestError
  | timeout
  | invalidState
  | sessionClosed
  deriving DecidableEq, Repr

/-- A network operation issued by the DTMF listener.  The listener always
targets the single `playback` handle and the single `incoming` channel
captured by its closure, so the actions carry no resource ids. -/
inductive Action where
  | control (operation : String)
  | hangup
  deriving DecidableEq, Repr

/-- The completion callbacks the listener passes when issuing operations:
each `control` call passes the no-op `function (err) {}`, while `hangup`
passes the callback that calls `process.exit(0)`. -/
inductive CbKind where
  | controlCb
  | hangupCb
  deriving DecidableEq, Repr

/-- State of the running example around one `ChannelDtmfReceived` event:
network requests issued so far (in order), completion callbacks not yet
invoked, lines written to the error log, and the process exit status if
`process.exit` has been called. -/
structure HandlerState where
  issued : List Action
  pending : List CbKind
  errLog : List String
  exited : Option Nat
  deriving DecidableEq, Repr

/-- The state before any DTMF event is handled. -/
def initState : HandlerState :=
  { issued := [], pending := [], errLog := [], exited := none }

/-- `playback.control({operation: op}, function(err) {})`: issue the
control request and record its (no-op) completion callback as pending. -/
def issueControl (op : String) (s : HandlerState) : HandlerState :=
  { s with issued := s.issued ++ [.control op],
           pending := s.pending ++ [.controlCb] }

/-- `incoming.hangup(function (err) { process.exit(0); })`: issue the
hangup request and record its completion callback as pending. -/
def issueHangup (s : HandlerState) : HandlerState :=
  { s with issued := s.issued ++ [.hangup],
           pending := s.pending ++ [.hangupCb] }

/-- `console.error(util.format('Unknown DTMF %s', digit))`. -/
def logUnknown (digit : String) (s : HandlerState) : HandlerState :=
  { s with errLog := s.errLog ++ ["Unknown DTMF " ++ digit] }

/-- The body of the `ChannelDtmfReceived` listener of the example
(`channelDtmfReceivedCallback`): a `switch` on `event.digit`. -/
def channelDtmfReceivedCallback (digit : String) (s : HandlerState) :
    HandlerState :=
  match digit with
  | "5" => issueControl "pause" s
  | "8" => issueControl "unpause" s
  | "4" => issueControl "reverse" s
  | "6" => issueControl "forward" s
  | "2" => issueControl "restart" s
  | "#" => issueHangup (issueControl "stop" s)
  | _ => logUnknown digit s

/-- Delivery of one operation completion: the transport invokes the
callback recorded at issue time with the operation's error outcome
(`none` on success).  The control callback `function (err) {}` does
nothing; the hangup callback calls `process.exit(0)`. -/
def runCompletion (k : CbKind) (e : Option AriError) (s : HandlerState) :
    HandlerState :=
  match k, e with
  | .controlCb, _ => s
  | .hangupCb, _ => { s with exited := some 0 }

/-- Deliver a sequence of completions in order. -/
def runCompletions (cs : List (CbKind × Option AriError))
    (s : HandlerState) : HandlerState :=
  cs.foldl (fun s c => runCompletion c.1 c.2 s) s

/-- Modelled from the spec: the library's client-side validation of
`control` operations (spec section 4.4), which is not part of the example
file — the operation is enumerated to exactly
{pause, unpause, reverse, forward, restart, stop}. -/
def validOps : List String :=
  ["pause", "unpause", "reverse", "forward", "restart", "stop"]

/-- Modelled from the spec: an unrecognized operation value fails with
`InvalidArgument` before any network call; a recognized one is accepted. -/
inductive ControlValidation where
  | accepted
  | invalidArgument
  deriving DecidableEq, Repr

/-- Modelled from the spec: local validation performed by
`playback.control` before any network call. -/
def controlValidate (op : String) : ControlValidation :=
  if op ∈ validOps then .accepted else .invalidArgument


/-- Delivering a sequence of completions sets the exit status to 0 exactly
when a hangup completion is among them; otherwise the status is
untouched. -/
theorem runCompletions_exited (cs : List (CbKind × Option AriError))
    (s : HandlerState) :
    (runCompletions cs s).exited =
      if CbKind.hangupCb ∈ cs.map Prod.fst then some 0 else s.exited := by
  induction cs generalizing s with
  | nil => rfl
  | cons c cs ih =>
    rcases c with ⟨k, e⟩
    have hstep : runCompletions (⟨k, e⟩ :: cs) s =
        runCompletions cs (runCompletion k e s) := rfl
    rw [hstep, ih]
    cases k with
    | controlCb =>
      by_cases hm : CbKind.hangupCb ∈ cs.map Prod.fst <;>
        simp [runCompletion, hm, List.map_cons, List.mem_cons]
    | hangupCb =>
      by_cases hm : CbKind.hangupCb ∈ cs.map Prod.fst <;>
        simp [runCompletion, hm, List.map_cons, List.mem_cons]

/-- C1: for each digit in {5, 8, 4, 6, 2}, the listener issues exactly one
playback control request with respectively pause, unpause, reverse,
forward, restart, and no other operation for that event. -/
theorem dtmf_digit_issues_single_control (s : HandlerState) :
    channelDtmfReceivedCallback "5" s =
      { s with issued := s.issued ++ [.control "pause"],
               pending := s.pending ++ [.controlCb] } ∧
    channelDtmfReceivedCallback "8" s =
      { s with issued := s.issued ++ [.control "unpause"],
               pending := s.pending ++ [.controlCb] } ∧
    channelDtmfReceivedCallback "4" s =
      { s with issued := s.issued ++ [.control "reverse"],
               pending := s.pending ++ [.controlCb] } ∧
    channelDtmfReceivedCallback "6" s =
      { s with issued := s.issued ++ [.control "forward"],
               pending := s.pending ++ [.controlCb] } ∧
    channelDtmfReceivedCallback "2" s =
      { s with issued := s.issued ++ [.control "restart"],
               pending := s.pending ++ [.controlCb] } := by
  refine ⟨rfl, rfl, rfl, rfl, rfl⟩



/-- C2: every control operation the listener ever issues lies in the
enumerated set {pause, unpause, reverse, forward, restart, stop}, so the
spec-modelled `InvalidArgument` validation branch is unreachable for every
digit the listener can receive. -/
theorem control_ops_always_valid (digit op : String)
    (h : Action.control op ∈
      (channelDtmfReceivedCallback digit initState).issued) :
    op ∈ validOps ∧ controlValidate op = .accepted := by
  unfold channelDtmfReceivedCallback at h
  split at h <;>
    simp [issueControl, issueHangup, logUnknown, initState] at h <;>
    subst h <;> decide

/-- Witness for C2 at digit 5: the issued operation is `pause`, which
passes validation. -/
theorem control_ops_always_valid_witness :
    "pause" ∈ validOps ∧ controlValidate "pause" = .accepted :=
  control_ops_always_valid "5" "pause" (by decide)

/-- C3: digit # issues a stop control and then a hangup, registers their
completion callbacks, and does not itself exit; for every subsequent
completion sequence the process exits with status 0 exactly when (hence
only after) the hangup completion callback has been invoked. -/
theorem hash_stops_hangs_exits_after_hangup_cb (s : HandlerState)
    (cs : List (CbKind × Option AriError)) (h : s.exited = none) :
    (channelDtmfReceivedCallback "#" s).issued =
      s.issued ++ [.control "stop", .hangup] ∧
    (channelDtmfReceivedCallback "#" s).pending =
      s.pending ++ [.controlCb, .hangupCb] ∧
    (channelDtmfReceivedCallback "#" s).exited = none ∧
    ((runCompletions cs (channelDtmfReceivedCallback "#" s)).exited =
        some 0 ↔ CbKind.hangupCb ∈ cs.map Prod.fst) := by
  refine ⟨by simp [channelDtmfReceivedCallback, issueControl, issueHangup],
    by simp [channelDtmfReceivedCallback, issueControl, issueHangup],
    by simp [channelDtmfReceivedCallback, issueControl, issueHangup, h],
    ?_⟩
  rw [runCompletions_exited]
  have he : (channelDtmfReceivedCallback "#" s).exited = none := by
    simp [channelDtmfReceivedCallback, issueControl, issueHangup, h]
  by_cases hm : CbKind.hangupCb ∈ cs.map Prod.fst <;> simp [hm, he]

/-- Witness for C3 at the initial state with a single successful hangup
completion. -/
theorem hash_stops_hangs_exits_after_hangup_cb_witness :
    (channelDtmfReceivedCallback "#" initState).issued =
      initState.issued ++ [.control "stop", .hangup] ∧
    (channelDtmfReceivedCallback "#" initState).pending =
      initState.pending ++ [.controlCb, .hangupCb] ∧
    (channelDtmfReceivedCallback "#" initState).exited = none ∧
    ((runCompletions [(CbKind.hangupCb, none)]
        (channelDtmfReceivedCallback "#" initState)).exited = some 0 ↔
      CbKind.hangupCb ∈ [(CbKind.hangupCb,
        (none : Option AriError))].map Prod.fst) :=
  hash_stops_hangs_exits_after_hangup_cb initState
    [(CbKind.hangupCb, none)] rfl

/-- C4 counterexample: the hangup completion callback triggered by DTMF
digit # terminates the process with exit status 0, so dispatch-path
listener execution (with its completion callbacks included) does
terminate the process. -/
theorem dispatch_never_exits_counterexample :
    initState.exited = none ∧
    (runCompletion .hangupCb none
      (channelDtmfReceivedCallback "#" initState)).exited = some 0 :=
  ⟨rfl, rfl⟩

/-- C4 amended: the synchronous body of the DTMF listener never changes
the process exit status for any digit, and control completion callbacks
never do either; the sole process termination is the hangup completion
callback (reachable only from digit #) calling exit 0. -/
theorem only_hangup_callback_exits (digit : String) (e : Option AriError)
    (s : HandlerState) :
    (channelDtmfReceivedCallback digit s).exited = s.exited ∧
    (runCompletion .controlCb e s).exited = s.exited ∧
    (runCompletion .hangupCb e s).exited = some 0 := by
  refine ⟨?_, rfl, rfl⟩
  unfold channelDtmfReceivedCallback
  split <;> rfl

/-- C9: a digit outside {5, 8, 4, 6, 2, #} causes no network operation,
no pending callback and no exit; the only effect is one `Unknown DTMF`
line appended to the error log. -/
theorem unknown_digit_only_logs (digit : String) (s : HandlerState)
    (h : digit ∉ ["5", "8", "4", "6", "2", "#"]) :
    channelDtmfReceivedCallback digit s =
      { s with errLog := s.errLog ++ ["Unknown DTMF " ++ digit] } := by
  unfold channelDtmfReceivedCallback
  split <;> simp_all [logUnknown]

/-- Witness for C9 at digit 9. -/
theorem unknown_digit_only_logs_witness :
    "9" ∉ ["5", "8", "4", "6", "2", "#"] ∧
    channelDtmfReceivedCallback "9" initState =
      { initState with
          errLog := initState.errLog ++ ["Unknown DTMF " ++ "9"] } :=
  ⟨by decide, unknown_digit_only_logs "9" initState (by decide)⟩

/-- C10: every control issue records the no-op completion callback, and
that callback leaves the whole state unchanged for every error outcome —
identical to the success case, nothing rethrown or logged. -/
theorem control_callback_ignores_error (op : String) (e : Option AriError)
    (s : HandlerState) :
    issueControl op s =
      { s with issued := s.issued ++ [.control op],
               pending := s.pending ++ [.controlCb] } ∧
    runCompletion .controlCb e s = s ∧
    runCompletion .controlCb e s = runCompletion .controlCb none s :=
  ⟨rfl, rfl, rfl⟩


/-- One step of the application-entry flow triggered by `StasisStart`. -/
inductive EntryStep where
  | issueAnswer
  | answerComplete (err : Option AriError)
  | allocPlayback (id : String)
  | issuePlay (media : String) (playbackId : String)
  | playComplete (err : Option AriError)
  | registerDtmfListeners
  deriving DecidableEq, Repr

/-- Body of the play completion callback in the example: it calls
`registerDtmfListeners(err, playback, incoming)`. -/
def playCompleteCallback : List EntryStep :=
  [.registerDtmfListeners]

/-- `channelAnswerCallback`: the body of the completion callback passed to
`incoming.answer` — allocate a fresh playback handle via `ari.Playback()`
and issue `incoming.play({media: 'sound:demo-congrats'}, playback, cb)`;
`cb` runs once play's request completes. -/
def channelAnswerCallback (pbId : String) (playErr : Option AriError) :
    List EntryStep :=
  [.allocPlayback pbId, .issuePlay "sound:demo-congrats" pbId,
   .playComplete playErr] ++ playCompleteCallback

/-- `stasisStartCallback`: the `StasisStart` handler issues
`incoming.answer(channelAnswerCallback)`; the serialized trace of this
single sequential flow is: answer issued, answer completion delivered,
then the completion callback body runs. -/
def stasisStartCallback (pbId : String)
    (answerErr playErr : Option AriError) : List EntryStep :=
  [.issueAnswer, .answerComplete answerErr] ++
    channelAnswerCallback pbId playErr

/-- Client-side bookkeeping of playback handles. -/
structure Registry where
  playbackIds : List String
  deriving DecidableEq, Repr

/-- Modelled from the spec: the `ari.Playback()` factory (not part of the
example file) allocates a fresh client-side playback id and pre-registers
the handle in the Registry (spec section 4.4), so subsequent events
referencing that id resolve immediately. -/
def PlaybackFactory (freshId : String) (r : Registry) : Registry :=
  { playbackIds := r.playbackIds ++ [freshId] }

/-- Registry contents after executing a prefix of the entry flow: only the
factory call mutates the registry. -/
def registryAfter (t : List EntryStep) (r : Registry) : Registry :=
  t.foldl (fun r step =>
    match step with
    | .allocPlayback i => PlaybackFactory i r
    | _ => r) r

/-- Modelled from the spec: `ari.once('StasisStart', handler)` state — the
library's `once` registration (not part of the example file) keeps the
handler armed until the first matching event, then removes it (spec
section 4.5 routes the first application-entry event to exactly one
handler).  The example registers no other `StasisStart` listener. -/
structure AppState where
  onceArmed : Bool
  entryFlows : Nat
  deriving DecidableEq, Repr

/-- State right after the connect ready callback has run
`ari.once('StasisStart', ...)`. -/
def initApp : AppState :=
  { onceArmed := true, entryFlows := 0 }

/-- Modelled from the spec: dispatch of one `StasisStart` event — an armed
once-listener fires (running the entry flow) and is removed; once
disarmed, no handler registered by this program is invoked. -/
def processStasisStart (s : AppState) : AppState :=
  if s.onceArmed then
    { onceArmed := false, entryFlows := s.entryFlows + 1 }
  else s

/-- Dispatch of a sequence of `StasisStart` events. -/
def processStasisStarts : Nat → AppState → AppState
  | 0, s => s
  | n + 1, s => processStasisStarts n (processStasisStart s)

/-- One step of the example's session setup. -/
inductive SetupStep where
  | connectCall (url user secret : String)
  | readyCallbackInvoked
  | registerOnceStasisStart
  | startCall (apps : List String)
  deriving DecidableEq, Repr

/-- The example's setup, in program order:
`client.connect('http://ari.js:8088', 'user', 'secret', cb)`; the ready
callback `cb` then runs `ari.once('StasisStart', ...)` and finally
`ari.start('playback-example')`. -/
def setupTrace : List SetupStep :=
  [.connectCall "http://ari.js:8088" "user" "secret",
   .readyCallbackInvoked,
   .registerOnceStasisStart,
   .startCall ["playback-example"]]

/-- Whether a setup step is an application-registration (`start`) call. -/
def isStartCall : SetupStep → Bool
  | .startCall _ => true
  | _ => false

/-- Refinement predicate following the claim's words: application-name
registration happens as part of the single connect operation, so no
separate registration call occurs after connect. -/
def noSeparateRegistration (t : List SetupStep) : Prop :=
  ∀ step ∈ t, isStartCall step = false

/-- C5: after connect, exactly the first `StasisStart` event triggers the
entry flow; after any number of further events the flow has still run
exactly once and the listener is disarmed, so subsequent events invoke no
handler registered by this program. -/
theorem first_stasis_start_only (n : Nat) :
    processStasisStart initApp =
      { onceArmed := false, entryFlows := 1 } ∧
    processStasisStarts (n + 1) initApp =
      { onceArmed := false, entryFlows := 1 } := by
  refine ⟨rfl, ?_⟩
  have hfix : ∀ m, processStasisStarts m
      { onceArmed := false, entryFlows := 1 } =
      { onceArmed := false, entryFlows := 1 } := by
    intro m
    induction m with
    | zero => rfl
    | succ m ih =>
      simpa [processStasisStarts, processStasisStart] using ih
  simpa [processStasisStarts, processStasisStart] using hfix n

/-- C6: in the entry-flow trace, every play request occurs strictly after
the answer operation's completion callback has been invoked; answer and
play are never issued concurrently on the channel. -/
theorem play_only_after_answer_complete (pbId : String)
    (aErr pErr : Option AriError) (i : Nat) (m p : String)
    (h : (stasisStartCallback pbId aErr pErr).get? i =
      some (.issuePlay m p)) :
    ∃ j, j < i ∧ ∃ e, (stasisStartCallback pbId aErr pErr).get? j =
      some (.answerComplete e) := by
  match i with
  | 0 | 1 | 2 | 4 | 5 =>
    simp [stasisStartCallback, channelAnswerCallback,
      playCompleteCallback] at h
  | 3 => exact ⟨1, by omega, aErr, rfl⟩
  | n + 6 =>
    simp [stasisStartCallback, channelAnswerCallback,
      playCompleteCallback] at h

/-- Witness for C6: in the concrete trace the play request sits at index 3
and the answer completion before it. -/
theorem play_only_after_answer_complete_witness :
    ∃ j, j < 3 ∧ ∃ e, (stasisStartCallback "p1" none none).get? j =
      some (.answerComplete e) :=
  play_only_after_answer_complete "p1" none none 3
    "sound:demo-congrats" "p1" rfl

/-- C7: before every play request in the entry flow, a fresh playback
handle with the played id was allocated via the factory, and at the moment
the play request is issued that id is already registered. -/
theorem playback_allocated_before_play (pbId : String)
    (aErr pErr : Option AriError) (i : Nat) (m p : String)
    (h : (stasisStartCallback pbId aErr pErr).get? i =
      some (.issuePlay m p)) :
    (∃ j, j < i ∧ (stasisStartCallback pbId aErr pErr).get? j =
        some (.allocPlayback p)) ∧
    p ∈ (registryAfter ((stasisStartCallback pbId aErr pErr).take i)
        ⟨[]⟩).playbackIds := by
  match i with
  | 0 | 1 | 2 | 4 | 5 =>
    simp [stasisStartCallback, channelAnswerCallback,
      playCompleteCallback] at h
  | 3 =>
    simp only [stasisStartCallback, channelAnswerCallback,
      playCompleteCallback, List.cons_append, List.nil_append,
      List.get?_cons_succ, List.get?_cons_zero, Option.some.injEq,
      EntryStep.issuePlay.injEq] at h
    obtain ⟨hm, hp⟩ := h
    subst hp
    refine ⟨⟨2, by omega, rfl⟩, ?_⟩
    simp [stasisStartCallback, channelAnswerCallback, playCompleteCallback,
      registryAfter, PlaybackFactory]
  | n + 6 =>
    simp [stasisStartCallback, channelAnswerCallback,
      playCompleteCallback] at h

/-- Witness for C7 at the concrete trace with playback id p1. -/
theorem playback_allocated_before_play_witness :
    (∃ j, j < 3 ∧ (stasisStartCallback "p1" none none).get? j =
        some (.allocPlayback "p1")) ∧
    "p1" ∈ (registryAfter ((stasisStartCallback "p1" none none).take 3)
        ⟨[]⟩).playbackIds :=
  playback_allocated_before_play "p1" none none 3
    "sound:demo-congrats" "p1" rfl

/-- C8 counterexample: the example's connect call passes only the server
address and credentials, and application registration happens through the
separate `ari.start('playback-example')` call issued after connect inside
the ready callback — refuting the claim that app names are inputs of the
single connect operation with no separate registration call afterwards. -/
theorem connect_registers_apps_counterexample :
    ¬ noSeparateRegistration setupTrace ∧
    setupTrace.get? 0 =
      some (.connectCall "http://ari.js:8088" "user" "secret") ∧
    setupTrace.get? 3 = some (.startCall ["playback-example"]) := by
  refine ⟨?_, rfl, rfl⟩
  intro hcl
  have := hcl (.startCall ["playback-example"]) (by decide)
  simp [isStartCall] at this

/-- C8 amended: connect takes only the server address and credentials;
interest in the application name is registered by exactly one separate
`ari.start` call, issued after connect inside the ready callback, after
the `StasisStart` listener is in place. -/
theorem connect_then_separate_start :
    setupTrace.get? 0 =
      some (.connectCall "http://ari.js:8088" "user" "secret") ∧
    setupTrace.get? 2 = some .registerOnceStasisStart ∧
    setupTrace.get? 3 = some (.startCall ["playback-example"]) ∧
    setupTrace.length = 4 ∧
    setupTrace.filter isStartCall = [.startCall ["playback-example"]] :=
  ⟨rfl, rfl, rfl, rfl, rfl⟩

end AriPlayback

